import Mathlib

/-!
Verification of the MiniMax text-to-speech command-line client
(`skills/minimax-tts/scripts/tts.py`).

The program is a single linear request/response driver: it validates the
API key and the text, builds one JSON payload, performs one HTTP POST,
interprets the JSON response, hex-decodes the audio payload and writes it
to the output file.  We embed it shallowly: the transport is a parameter
(the outcome the single network call would produce), and `runMain` returns
an `Outcome` record describing every observable effect: the exit status,
the file written (if any), the lines printed to standard output, whether
the network was consulted, the serialized request body that was sent, and
whether the process died from an uncaught exception (which in Python also
exits with status 1, printing a traceback to standard error).

Numbers appearing in JSON are modelled as rationals: every numeric literal
of the program (1.0, 0, 32000, 128000, 1, -1) and every integral response
field is represented exactly, and Python's numeric equality `x == 0`
coincides with equality on `Rat` for such values.
-/

/-- JSON values, as produced by `json.loads`.  Numbers are rationals.
A Python dict is a key-value list (`json.loads` keeps the last binding of
a duplicated key; the responses considered here never duplicate keys, and
lookups below take the first binding). -/
inductive Json where
  | obj (entries : List (String × Json))
  | arr (items : List Json)
  | str (s : String)
  | num (q : Rat)
  | bool (b : Bool)
  | null

/-- Python `dict.get(key, default)` on a JSON object's field list. -/
def dictGetD (fields : List (String × Json)) (key : String) (default : Json) : Json :=
  match fields.lookup key with
  | some v => v
  | none => default

/-- The field list of a JSON object (used to state lookups on built payloads). -/
def jsonObjFields : Json → List (String × Json)
  | .obj fields => fields
  | _ => []

/-- Python `x == 0` for a JSON-loaded value: numbers compare numerically,
`False == 0` holds in Python; other values are never equal to 0. -/
def pyEqZero : Json → Bool
  | .num q => decide (q = 0)
  | .bool b => !b
  | _ => false

/-- Python `str(x)` for a JSON-loaded value, as interpolated by f-strings.
Scalars are rendered exactly (the program only ever interpolates strings
and integers; integral rationals print like Python integers).  Containers
and non-integral numbers are abbreviated: no theorem below depends on
those cases. -/
def pyStr : Json → String
  | .null => "None"
  | .bool true => "True"
  | .bool false => "False"
  | .num q => if q.den = 1 then toString q.num else toString q.num ++ "/" ++ toString q.den
  | .str s => s
  | .arr _ => "[...]"
  | .obj _ => "\x7b...\x7d"

/-- A character Python `str.strip()` removes (ASCII whitespace). -/
def isPySpace (c : Char) : Bool :=
  c = ' ' || c = '\t' || c = '\n' || c = '\r' || c = Char.ofNat 11 || c = Char.ofNat 12

/-- Python `s.strip()`: drop ASCII whitespace from both ends. -/
def pyStrip (s : String) : String :=
  String.mk (((s.data.dropWhile isPySpace).reverse.dropWhile isPySpace).reverse)

/-- One hex digit's value, for `bytes.fromhex` (both letter cases are
accepted), computed on the character's code point. -/
def hexDigitVal (c : Char) : Option Nat :=
  let p := c.toNat
  if 48 ≤ p ∧ p ≤ 57 then some (p - 48)
  else if 97 ≤ p ∧ p ≤ 102 then some (p - 87)
  else if 65 ≤ p ∧ p ≤ 70 then some (p - 55)
  else none

/-- Python `bytes.fromhex` on a character list: two hex digits per byte,
spaces skipped between bytes; anything else raises `ValueError` (`none`). -/
def bytesFromHexList : List Char → Option (List Nat)
  | [] => some []
  | c :: rest =>
    if c = ' ' then bytesFromHexList rest
    else
      match rest with
      | [] => none
      | c2 :: rest2 =>
        match hexDigitVal c, hexDigitVal c2 with
        | some hi, some lo => Option.map (fun bs => (16 * hi + lo) :: bs) (bytesFromHexList rest2)
        | _, _ => none

/-- Python `bytes.fromhex(s)`, returning `none` on malformed input. -/
def bytesFromHex (s : String) : Option (List Nat) :=
  bytesFromHexList s.data

/-- The lowercase hex digit for a value below 16 (as in `bytes.hex()`). -/
def hexDigitChar (n : Nat) : Char :=
  if n < 10 then Char.ofNat (48 + n) else Char.ofNat (87 + n)

/-- Python `bytes.hex()`: two lowercase hex digits per byte. -/
def bytesToHexList : List Nat → List Char
  | [] => []
  | b :: bs => hexDigitChar (b / 16) :: hexDigitChar (b % 16) :: bytesToHexList bs

/-- Python `bytes.hex()` yielding a string. -/
def bytesToHex (bs : List Nat) : String :=
  String.mk (bytesToHexList bs)

/-- The parsed command-line arguments (`args` after `parser.parse_args()`).
`speed` is a command-line float; every value the program ever places in
the payload is carried exactly as a rational. -/
structure Args where
  text : String
  voice : String
  emotion : Option String
  speed : Rat
  output : String
  model : String

/-- The `voice_setting` object: `voice_id`, `speed`, fixed `vol` 1.0 and
`pitch` 0, and `emotion` appended only when the caller supplied one. -/
def buildVoiceSetting (args : Args) : List (String × Json) :=
  let base := [("voice_id", Json.str args.voice),
               ("speed", Json.num args.speed),
               ("vol", Json.num 1),
               ("pitch", Json.num 0)]
  match args.emotion with
  | some e => base ++ [("emotion", Json.str e)]
  | none => base

/-- The full request payload built by `main` before the network call. -/
def buildPayload (args : Args) : Json :=
  Json.obj
    [("model", Json.str args.model),
     ("text", Json.str args.text),
     ("stream", Json.bool false),
     ("voice_setting", Json.obj (buildVoiceSetting args)),
     ("audio_setting", Json.obj
       [("sample_rate", Json.num 32000),
        ("bitrate", Json.num 128000),
        ("format", Json.str "mp3"),
        ("channel", Json.num 1)])]

/-- What the single `urlopen` call produces: a 2xx response whose body
parses as JSON, an `HTTPError` carrying a status code and a raw body, or
a transport failure (timeout / connection error) that the program does
not catch. -/
inductive TransportOutcome where
  | ok : Json → TransportOutcome
  | httpError : Nat → String → TransportOutcome
  | netError : TransportOutcome

/-- Every observable effect of one invocation.  `written` is the path and
byte content of the output file if one was written; `crashed` means the
process died from an uncaught exception (Python exits with status 1 and
prints a traceback to standard error, not standard output). -/
structure Outcome where
  exitCode : Nat
  written : Option (String × List Nat)
  stdout : List String
  networkCalled : Bool
  request : Option Json
  crashed : Bool

/-- Termination by an uncaught exception after the network call. -/
def crashOutcome (written : Option (String × List Nat)) (stdout : List String)
    (request : Option Json) : Outcome :=
  { exitCode := 1, written := written, stdout := stdout,
    networkCalled := true, request := request, crashed := true }

/-- The whole program, shallowly embedded from `main` in `tts.py`.
`abspath` stands for `os.path.abspath` (it only decorates the success
message); `apiKey` is `os.environ.get("MINIMAX_API_KEY")`; `transport`
is what the single POST would produce. -/
def runMain (abspath : String → String) (apiKey : Option String) (args : Args)
    (transport : TransportOutcome) : Outcome :=
  -- if not api_key: (None and "" are both falsy)
  if apiKey = none ∨ apiKey = some "" then
    { exitCode := 1, written := none,
      stdout := ["ERROR: MINIMAX_API_KEY environment variable not set"],
      networkCalled := false, request := none, crashed := false }
  -- if not args.text.strip():
  else if pyStrip args.text = "" then
    { exitCode := 1, written := none,
      stdout := ["ERROR: Empty text provided"],
      networkCalled := false, request := none, crashed := false }
  else
    let payload := buildPayload args
    match transport with
    -- timeout / connection error: URLError is not caught by `except HTTPError`
    | .netError => crashOutcome none [] (some payload)
    -- except HTTPError as e: print code and raw body, exit(1)
    | .httpError code body =>
      { exitCode := 1, written := none,
        stdout := ["ERROR: API returned " ++ toString code, body],
        networkCalled := true, request := some payload, crashed := false }
    | .ok responseBody =>
      match responseBody with
      -- a non-dict JSON body has no .get: AttributeError
      | .obj fields =>
        -- status_code = data.get("base_resp", {}).get("status_code", -1)
        match dictGetD fields "base_resp" (Json.obj []) with
        | .obj baseResp =>
          let statusCode := dictGetD baseResp "status_code" (Json.num (-1))
          if pyEqZero statusCode then
            -- audio_hex = data["data"]["audio"]
            match fields.lookup "data" with
            | some (.obj dataFields) =>
              match dataFields.lookup "audio" with
              | some (.str audioHex) =>
                match bytesFromHex audioHex with
                | some audioBytes =>
                  -- the file is written before the success report is printed
                  let successLine := "SUCCESS: Audio saved to " ++ abspath args.output
                  match dictGetD fields "extra_info" (Json.obj []) with
                  | .obj extra =>
                    { exitCode := 0,
                      written := some (args.output, audioBytes),
                      stdout :=
                        [successLine,
                         "Duration: " ++ pyStr (dictGetD extra "audio_length" (Json.num 0)) ++ " ms",
                         "Size: " ++ pyStr (dictGetD extra "audio_size" (Json.num 0)) ++ " bytes",
                         "Characters: " ++ pyStr (dictGetD extra "usage_characters" (Json.num 0))],
                      networkCalled := true, request := some payload, crashed := false }
                  -- extra_info present but not a dict: .get raises after the
                  -- file write and the first print
                  | _ => crashOutcome (some (args.output, audioBytes)) [successLine] (some payload)
                -- malformed hex: ValueError from bytes.fromhex
                | none => crashOutcome none [] (some payload)
              -- "audio" missing (KeyError) or not a string (TypeError)
              | _ => crashOutcome none [] (some payload)
            -- "data" missing (KeyError) or not a dict (TypeError)
            | _ => crashOutcome none [] (some payload)
          else
            -- application error: print status_msg or the fallback, exit(1)
            { exitCode := 1, written := none,
              stdout := ["ERROR: " ++
                pyStr (dictGetD baseResp "status_msg" (Json.str "Unknown error"))],
              networkCalled := true, request := some payload, crashed := false }
        -- base_resp present but not a dict: .get raises AttributeError
        | _ => crashOutcome none [] (some payload)
      | _ => crashOutcome none [] (some payload)

/-- A representative invocation: defaults of the argument parser with the
text "hello". -/
def sampleArgs : Args :=
  { text := "hello", voice := "male-qn-qingse", emotion := none, speed := 1,
    output := "tts_output.mp3", model := "speech-2.8-hd" }

/-- An invocation whose text carries surrounding whitespace. -/
def spacedArgs : Args :=
  { text := "  hi  ", voice := "male-qn-qingse", emotion := none, speed := 1,
    output := "tts_output.mp3", model := "speech-2.8-hd" }

/-- An invocation that supplies `--emotion happy`. -/
def happyArgs : Args :=
  { text := "hello", voice := "male-qn-qingse", emotion := some "happy", speed := 1,
    output := "tts_output.mp3", model := "speech-2.8-hd" }

/-- A success response carrying the hex encoding of the bytes of "Hel". -/
def sampleOkFields : List (String × Json) :=
  [("base_resp", Json.obj [("status_code", Json.num 0)]),
   ("data", Json.obj [("audio", Json.str "48656c")])]

/-! ### Hex round-trip -/

theorem hexDigitVal_hexDigitChar : ∀ n < 16, hexDigitVal (hexDigitChar n) = some n := by
  decide

theorem hexDigitChar_ne_space : ∀ n < 16, hexDigitChar n ≠ ' ' := by
  decide

/-- Decoding the lowercase hex encoding of a byte sequence recovers it. -/
theorem bytesFromHexList_bytesToHexList (bs : List Nat) (h : ∀ b ∈ bs, b < 256) :
    bytesFromHexList (bytesToHexList bs) = some bs := by
  induction bs with
  | nil => rfl
  | cons b tl ih =>
    have hb : b < 256 := h b (List.mem_cons_self b tl)
    have hhi : b / 16 < 16 := by omega
    have hlo : b % 16 < 16 := by omega
    have e1 := hexDigitVal_hexDigitChar _ hhi
    have e2 := hexDigitVal_hexDigitChar _ hlo
    have ns := hexDigitChar_ne_space _ hhi
    have ihh := ih (fun x hx => h x (List.mem_cons_of_mem b hx))
    simp [bytesToHexList, bytesFromHexList, ns, e1, e2, ihh]
    omega

theorem bytesFromHex_bytesToHex (bs : List Nat) (h : ∀ b ∈ bs, b < 256) :
    bytesFromHex (bytesToHex bs) = some bs :=
  bytesFromHexList_bytesToHexList bs h

/-! ### Branch characterizations of `runMain` -/

theorem apiKeyPresent {k : String} (hk : ¬ k = "") :
    ¬ ((some k : Option String) = none ∨ (some k : Option String) = some "") := by
  simp [hk]

/-- The `HTTPError` handler prints the code and the raw body and exits 1. -/
theorem runMain_httpError (abspath : String → String) (k : String) (args : Args)
    (code : Nat) (body : String) (hk : ¬ k = "") (ht : ¬ pyStrip args.text = "") :
    runMain abspath (some k) args (.httpError code body) =
      { exitCode := 1, written := none,
        stdout := ["ERROR: API returned " ++ toString code, body],
        networkCalled := true, request := some (buildPayload args), crashed := false } := by
  unfold runMain
  rw [if_neg (apiKeyPresent hk), if_neg ht]

/-- A timeout or connection error is an uncaught exception after the call. -/
theorem runMain_netError (abspath : String → String) (k : String) (args : Args)
    (hk : ¬ k = "") (ht : ¬ pyStrip args.text = "") :
    runMain abspath (some k) args .netError =
      crashOutcome none [] (some (buildPayload args)) := by
  unfold runMain
  rw [if_neg (apiKeyPresent hk), if_neg ht]

/-- Application error branch: non-zero status code prints the server's
message (or the fallback) and exits 1 without writing. -/
theorem runMain_appError (abspath : String → String) (k : String) (args : Args)
    (fields br : List (String × Json)) (hk : ¬ k = "") (ht : ¬ pyStrip args.text = "")
    (hb : dictGetD fields "base_resp" (Json.obj []) = Json.obj br)
    (hs : pyEqZero (dictGetD br "status_code" (Json.num (-1))) = false) :
    runMain abspath (some k) args (.ok (.obj fields)) =
      { exitCode := 1, written := none,
        stdout := ["ERROR: " ++
          pyStr (dictGetD br "status_msg" (Json.str "Unknown error"))],
        networkCalled := true, request := some (buildPayload args), crashed := false } := by
  unfold runMain
  rw [if_neg (apiKeyPresent hk), if_neg ht]
  simp only [hb, hs]
  simp

/-- Success branch: zero status, `data.audio` a decodable hex string, and
`extra_info` a dictionary (the empty one when absent). -/
theorem runMain_ok_success (abspath : String → String) (k : String) (args : Args)
    (fields br d extra : List (String × Json)) (hex : String) (bs : List Nat)
    (hk : ¬ k = "") (ht : ¬ pyStrip args.text = "")
    (hb : dictGetD fields "base_resp" (Json.obj []) = Json.obj br)
    (hs : pyEqZero (dictGetD br "status_code" (Json.num (-1))) = true)
    (hd : fields.lookup "data" = some (Json.obj d))
    (ha : d.lookup "audio" = some (Json.str hex))
    (hx : bytesFromHex hex = some bs)
    (he : dictGetD fields "extra_info" (Json.obj []) = Json.obj extra) :
    runMain abspath (some k) args (.ok (.obj fields)) =
      { exitCode := 0, written := some (args.output, bs),
        stdout := ["SUCCESS: Audio saved to " ++ abspath args.output,
                   "Duration: " ++ pyStr (dictGetD extra "audio_length" (Json.num 0)) ++ " ms",
                   "Size: " ++ pyStr (dictGetD extra "audio_size" (Json.num 0)) ++ " bytes",
                   "Characters: " ++ pyStr (dictGetD extra "usage_characters" (Json.num 0))],
        networkCalled := true, request := some (buildPayload args), crashed := false } := by
  unfold runMain
  rw [if_neg (apiKeyPresent hk), if_neg ht]
  simp only [hb, hs, hd, ha, hx, he]
  simp

/-- Whenever the preconditions pass, the request actually sent is the
built payload, on every transport outcome and every response shape. -/
theorem runMain_request (abspath : String → String) (k : String) (args : Args)
    (transport : TransportOutcome) (hk : ¬ k = "") (ht : ¬ pyStrip args.text = "") :
    (runMain abspath (some k) args transport).request = some (buildPayload args) := by
  unfold runMain
  rw [if_neg (apiKeyPresent hk), if_neg ht]
  cases transport with
  | netError => rfl
  | httpError code body => rfl
  | ok body =>
    cases body <;> try rfl
    case obj fields =>
      dsimp only
      repeat' split
      all_goals rfl

/-! ### Claims -/

/-- C1: with a present non-empty API key, non-empty trimmed text, and a
transport response with `base_resp.status_code = 0` and a valid hex string
in `data.audio`, the program writes the output file with exactly the
hex-decoded bytes and exits with status 0; in particular, feeding the hex
encoding of any byte sequence B yields an output file equal to B. -/
theorem audio_roundtrip_success (abspath : String → String) (k : String) (args : Args)
    (fields br d extra : List (String × Json)) (hex : String) (bs : List Nat)
    (hk : ¬ k = "") (ht : ¬ pyStrip args.text = "")
    (hb : dictGetD fields "base_resp" (Json.obj []) = Json.obj br)
    (hs : dictGetD br "status_code" (Json.num (-1)) = Json.num 0)
    (hd : fields.lookup "data" = some (Json.obj d))
    (ha : d.lookup "audio" = some (Json.str hex))
    (hx : bytesFromHex hex = some bs)
    (he : dictGetD fields "extra_info" (Json.obj []) = Json.obj extra) :
    (runMain abspath (some k) args (.ok (.obj fields))).written = some (args.output, bs) ∧
    (runMain abspath (some k) args (.ok (.obj fields))).exitCode = 0 ∧
    (runMain abspath (some k) args (.ok (.obj fields))).crashed = false ∧
    (∀ B : List Nat, (∀ b ∈ B, b < 256) → hex = bytesToHex B → bs = B) := by
  have hs' : pyEqZero (dictGetD br "status_code" (Json.num (-1))) = true := by
    rw [hs]; rfl
  rw [runMain_ok_success abspath k args fields br d extra hex bs hk ht hb hs' hd ha hx he]
  refine ⟨rfl, rfl, rfl, fun B hB hhex => ?_⟩
  have hrt := bytesFromHex_bytesToHex B hB
  rw [← hhex, hx] at hrt
  exact Option.some.inj hrt

/-- Witness for C1 at a concrete success response. -/
theorem audio_roundtrip_success_witness :
    (runMain id (some "key") sampleArgs (.ok (.obj sampleOkFields))).written =
      some ("tts_output.mp3", [72, 101, 108]) :=
  (audio_roundtrip_success id "key" sampleArgs sampleOkFields
    [("status_code", Json.num 0)] [("audio", Json.str "48656c")] [] "48656c"
    [72, 101, 108] (by decide) (by decide) rfl rfl rfl rfl rfl rfl).1

/-- C2: a non-2xx HTTP response makes the program print the status code
and the raw body, write no file, and exit with status 1; a timeout or
connection error also writes no file and terminates with status 1; in
particular, HTTP 500 with body "server error" prints both and exits 1. -/
theorem transport_error_reported (abspath : String → String) (k : String) (args : Args)
    (hk : ¬ k = "") (ht : ¬ pyStrip args.text = "") :
    (∀ code body,
      (runMain abspath (some k) args (.httpError code body)).stdout =
        ["ERROR: API returned " ++ toString code, body] ∧
      (runMain abspath (some k) args (.httpError code body)).written = none ∧
      (runMain abspath (some k) args (.httpError code body)).exitCode = 1) ∧
    ((runMain abspath (some k) args .netError).written = none ∧
     (runMain abspath (some k) args .netError).exitCode = 1) ∧
    ((runMain abspath (some k) args (.httpError 500 "server error")).stdout =
       ["ERROR: API returned 500", "server error"] ∧
     (runMain abspath (some k) args (.httpError 500 "server error")).exitCode = 1) := by
  refine ⟨fun code body => ?_, ?_, ?_⟩
  · rw [runMain_httpError abspath k args code body hk ht]
    exact ⟨rfl, rfl, rfl⟩
  · rw [runMain_netError abspath k args hk ht]
    exact ⟨rfl, rfl⟩
  · rw [runMain_httpError abspath k args 500 "server error" hk ht]
    exact ⟨rfl, rfl⟩

/-- Witness for C2 at the HTTP 500 instance. -/
theorem transport_error_reported_witness :
    (runMain id (some "key") sampleArgs (.httpError 500 "server error")).stdout =
      ["ERROR: API returned 500", "server error"] :=
  (transport_error_reported id "key" sampleArgs (by decide) (by decide)).2.2.1

/-- C3: the output file is written only when the hex decode of
`data.audio` fully succeeded, and then it holds exactly the decoded
bytes at the configured output path; hence no failure path (configuration
error, transport error, non-zero status, missing or malformed audio)
ever writes or modifies the output file. -/
theorem no_write_without_decode (abspath : String → String) (apiKey : Option String)
    (args : Args) (transport : TransportOutcome) (p : String) (bs : List Nat)
    (h : (runMain abspath apiKey args transport).written = some (p, bs)) :
    ∃ fields d hex, transport = TransportOutcome.ok (Json.obj fields) ∧
      fields.lookup "data" = some (Json.obj d) ∧
      d.lookup "audio" = some (Json.str hex) ∧
      bytesFromHex hex = some bs ∧ p = args.output := by
  unfold runMain at h
  dsimp only at h
  split at h
  · exact absurd h (by simp)
  · split at h
    · exact absurd h (by simp)
    · rcases transport with body | ⟨code, rbody⟩ | _
      · cases body with
        | null => exact absurd h (by simp [crashOutcome])
        | bool b => exact absurd h (by simp [crashOutcome])
        | num q => exact absurd h (by simp [crashOutcome])
        | str s => exact absurd h (by simp [crashOutcome])
        | arr l => exact absurd h (by simp [crashOutcome])
        | obj fields =>
          dsimp only at h
          repeat' split at h
          all_goals simp only [crashOutcome, Option.some.injEq, Prod.mk.injEq] at h
          all_goals obtain ⟨hp, hbs⟩ := h
          all_goals subst hbs
          all_goals subst hp
          all_goals exact ⟨_, _, _, rfl, by assumption, by assumption, by assumption, rfl⟩
      · exact absurd h (by simp)
      · exact absurd h (by simp [crashOutcome])

/-- Witness for C3 at a concrete successful write. -/
theorem no_write_without_decode_witness :
    ∃ fields d hex, TransportOutcome.ok (Json.obj sampleOkFields) =
        TransportOutcome.ok (Json.obj fields) ∧
      fields.lookup "data" = some (Json.obj d) ∧
      d.lookup "audio" = some (Json.str hex) ∧
      bytesFromHex hex = some [72, 101, 108] ∧ "tts_output.mp3" = sampleArgs.output :=
  no_write_without_decode id (some "key") sampleArgs (.ok (.obj sampleOkFields))
    "tts_output.mp3" [72, 101, 108] rfl

/-- C4: a missing API key, and empty-or-whitespace text, each print their
own diagnostic and exit with status 1 before any network activity and
without writing a file; the two diagnostics are distinct. -/
theorem preconditions_fail_fast (abspath : String → String) (args : Args)
    (transport : TransportOutcome) :
    (runMain abspath none args transport =
      { exitCode := 1, written := none,
        stdout := ["ERROR: MINIMAX_API_KEY environment variable not set"],
        networkCalled := false, request := none, crashed := false }) ∧
    (∀ k, ¬ k = "" → pyStrip args.text = "" →
      runMain abspath (some k) args transport =
        { exitCode := 1, written := none, stdout := ["ERROR: Empty text provided"],
          networkCalled := false, request := none, crashed := false }) ∧
    (∀ apiKey : Option String, pyStrip args.text = "" →
      (runMain abspath apiKey args transport).networkCalled = false ∧
      (runMain abspath apiKey args transport).written = none ∧
      (runMain abspath apiKey args transport).exitCode = 1) ∧
    ("ERROR: MINIMAX_API_KEY environment variable not set" ≠
      "ERROR: Empty text provided") := by
  refine ⟨rfl, fun k hk ht => ?_, fun apiKey ht => ?_, by decide⟩
  · unfold runMain
    rw [if_neg (apiKeyPresent hk), if_pos ht]
  · by_cases hA : (apiKey = none ∨ apiKey = some "")
    · unfold runMain
      rw [if_pos hA]
      exact ⟨rfl, rfl, rfl⟩
    · unfold runMain
      rw [if_neg hA, if_pos ht]
      exact ⟨rfl, rfl, rfl⟩

/-- Witness for C4 with whitespace-only text. -/
theorem preconditions_fail_fast_witness :
    (runMain id (some "key") { sampleArgs with text := "   " } .netError).networkCalled =
      false :=
  ((preconditions_fail_fast id { sampleArgs with text := "   " } .netError).2.2.1
    (some "key") (by decide)).1

/-- C5: a well-formed response whose `base_resp.status_code` is a number
other than 0 makes the program print the server's `status_msg` (or the
fallback "Unknown error" when it is absent), write no file, and exit with
status 1 without crashing. -/
theorem app_error_reported (abspath : String → String) (k : String) (args : Args)
    (fields br : List (String × Json)) (s : Rat)
    (hk : ¬ k = "") (ht : ¬ pyStrip args.text = "")
    (hb : dictGetD fields "base_resp" (Json.obj []) = Json.obj br)
    (hsc : dictGetD br "status_code" (Json.num (-1)) = Json.num s)
    (hs0 : ¬ s = 0) :
    (runMain abspath (some k) args (.ok (.obj fields))).written = none ∧
    (runMain abspath (some k) args (.ok (.obj fields))).exitCode = 1 ∧
    (runMain abspath (some k) args (.ok (.obj fields))).crashed = false ∧
    (∀ m, br.lookup "status_msg" = some (Json.str m) →
      (runMain abspath (some k) args (.ok (.obj fields))).stdout = ["ERROR: " ++ m]) ∧
    (br.lookup "status_msg" = none →
      (runMain abspath (some k) args (.ok (.obj fields))).stdout =
        ["ERROR: Unknown error"]) := by
  have hs' : pyEqZero (dictGetD br "status_code" (Json.num (-1))) = false := by
    rw [hsc]
    simp [pyEqZero, hs0]
  rw [runMain_appError abspath k args fields br hk ht hb hs']
  refine ⟨rfl, rfl, rfl, fun m hm => ?_, fun hm => ?_⟩
  · simp [dictGetD, hm, pyStr]
  · simp [dictGetD, hm, pyStr]

/-- Witness for C5 at a concrete application error. -/
theorem app_error_reported_witness :
    (runMain id (some "key") sampleArgs
      (.ok (.obj [("base_resp",
        Json.obj [("status_code", Json.num 1004), ("status_msg", Json.str "rate limited")])]))).stdout =
      ["ERROR: rate limited"] :=
  (app_error_reported id "key" sampleArgs
    [("base_resp", Json.obj [("status_code", Json.num 1004), ("status_msg", Json.str "rate limited")])]
    [("status_code", Json.num 1004), ("status_msg", Json.str "rate limited")] 1004
    (by decide) (by decide) rfl rfl (by norm_num)).2.2.2.1 "rate limited" rfl

/-- C6: the serialized request body's `voice_setting` contains no
`emotion` key when none was supplied, and contains exactly the supplied
value when one was. -/
theorem emotion_omitted_unless_supplied (args : Args) :
    (jsonObjFields (buildPayload args)).lookup "voice_setting" =
      some (Json.obj (buildVoiceSetting args)) ∧
    (args.emotion = none → (buildVoiceSetting args).lookup "emotion" = none) ∧
    (∀ e, args.emotion = some e →
      (buildVoiceSetting args).lookup "emotion" = some (Json.str e)) := by
  refine ⟨rfl, fun h => ?_, fun e h => ?_⟩
  · unfold buildVoiceSetting
    rw [h]
    rfl
  · unfold buildVoiceSetting
    rw [h]
    rfl

/-- Witness for C6: emotion omitted by default, present when supplied. -/
theorem emotion_omitted_unless_supplied_witness :
    (buildVoiceSetting sampleArgs).lookup "emotion" = none ∧
    (buildVoiceSetting happyArgs).lookup "emotion" = some (Json.str "happy") :=
  ⟨(emotion_omitted_unless_supplied sampleArgs).2.1 rfl,
   (emotion_omitted_unless_supplied happyArgs).2.2 "happy" rfl⟩

/-- C7: the success report reads duration, size, and billed characters
from `extra_info` with independent defaulting: an entirely absent
`extra_info` yields 0 for all three without failing, and a present
`extra_info` carrying only `audio_size` still defaults the other two. -/
theorem extra_info_independent_defaults (abspath : String → String) (k : String)
    (args : Args) (fields br d : List (String × Json)) (hex : String) (bs : List Nat)
    (hk : ¬ k = "") (ht : ¬ pyStrip args.text = "")
    (hb : dictGetD fields "base_resp" (Json.obj []) = Json.obj br)
    (hs : dictGetD br "status_code" (Json.num (-1)) = Json.num 0)
    (hd : fields.lookup "data" = some (Json.obj d))
    (ha : d.lookup "audio" = some (Json.str hex))
    (hx : bytesFromHex hex = some bs) :
    (fields.lookup "extra_info" = none →
      (runMain abspath (some k) args (.ok (.obj fields))).stdout =
        ["SUCCESS: Audio saved to " ++ abspath args.output,
         "Duration: 0 ms", "Size: 0 bytes", "Characters: 0"] ∧
      (runMain abspath (some k) args (.ok (.obj fields))).exitCode = 0) ∧
    (∀ n : Rat, n.den = 1 →
      dictGetD fields "extra_info" (Json.obj []) = Json.obj [("audio_size", Json.num n)] →
      (runMain abspath (some k) args (.ok (.obj fields))).stdout =
        ["SUCCESS: Audio saved to " ++ abspath args.output,
         "Duration: 0 ms", "Size: " ++ toString n.num ++ " bytes", "Characters: 0"] ∧
      (runMain abspath (some k) args (.ok (.obj fields))).exitCode = 0) := by
  have hs' : pyEqZero (dictGetD br "status_code" (Json.num (-1))) = true := by
    rw [hs]
    rfl
  constructor
  · intro hnone
    have he : dictGetD fields "extra_info" (Json.obj []) = Json.obj [] := by
      simp [dictGetD, hnone]
    rw [runMain_ok_success abspath k args fields br d [] hex bs hk ht hb hs' hd ha hx he]
    exact ⟨rfl, rfl⟩
  · intro n hden he
    rw [runMain_ok_success abspath k args fields br d [("audio_size", Json.num n)]
      hex bs hk ht hb hs' hd ha hx he]
    refine ⟨?_, rfl⟩
    have h1 : dictGetD [("audio_size", Json.num n)] "audio_size" (Json.num 0) =
        Json.num n := rfl
    have h2 : pyStr (Json.num n) = toString n.num := by
      show (if n.den = 1 then toString n.num
            else toString n.num ++ "/" ++ toString n.den) = toString n.num
      rw [if_pos hden]
    rw [h1, h2]
    rfl

/-- Witness for C7: a success response with no `extra_info` at all. -/
theorem extra_info_independent_defaults_witness :
    (runMain id (some "key") sampleArgs (.ok (.obj sampleOkFields))).stdout =
      ["SUCCESS: Audio saved to tts_output.mp3",
       "Duration: 0 ms", "Size: 0 bytes", "Characters: 0"] :=
  ((extra_info_independent_defaults id "key" sampleArgs sampleOkFields
    [("status_code", Json.num 0)] [("audio", Json.str "48656c")] "48656c"
    [72, 101, 108] (by decide) (by decide) rfl rfl rfl rfl rfl).1 rfl).1

/-- C8: the request body deterministically carries the fixed fields
`stream: false`, `voice_setting.vol: 1.0`, `voice_setting.pitch: 0`, and
the fixed `audio_setting` (32000 / 128000 / "mp3" / 1), alongside the
caller-supplied model, text, voice id, and speed. -/
theorem payload_fixed_fields (args : Args) :
    (jsonObjFields (buildPayload args)).lookup "stream" = some (Json.bool false) ∧
    (jsonObjFields (buildPayload args)).lookup "model" = some (Json.str args.model) ∧
    (jsonObjFields (buildPayload args)).lookup "text" = some (Json.str args.text) ∧
    (jsonObjFields (buildPayload args)).lookup "audio_setting" =
      some (Json.obj [("sample_rate", Json.num 32000), ("bitrate", Json.num 128000),
                      ("format", Json.str "mp3"), ("channel", Json.num 1)]) ∧
    (buildVoiceSetting args).lookup "voice_id" = some (Json.str args.voice) ∧
    (buildVoiceSetting args).lookup "speed" = some (Json.num args.speed) ∧
    (buildVoiceSetting args).lookup "vol" = some (Json.num 1) ∧
    (buildVoiceSetting args).lookup "pitch" = some (Json.num 0) ∧
    (jsonObjFields (buildPayload args)).lookup "voice_setting" =
      some (Json.obj (buildVoiceSetting args)) := by
  refine ⟨rfl, rfl, rfl, rfl, ?_, ?_, ?_, ?_, rfl⟩ <;>
    cases h : args.emotion <;> simp [buildVoiceSetting, h, List.lookup]

/-- C9 counterexample: a response whose `base_resp` lacks `status_code`
but carries a `status_msg` prints that message, not the fallback
"Unknown error" the claim asserts for every such response. -/
theorem missing_envelope_counterexample :
    ([("status_msg", Json.str "boom")] : List (String × Json)).lookup "status_code" =
      none ∧
    (runMain id (some "key") sampleArgs
      (.ok (.obj [("base_resp", Json.obj [("status_msg", Json.str "boom")])]))).stdout =
      ["ERROR: boom"] ∧
    ¬ (runMain id (some "key") sampleArgs
      (.ok (.obj [("base_resp", Json.obj [("status_msg", Json.str "boom")])]))).stdout =
      ["ERROR: Unknown error"] := by
  refine ⟨rfl, by decide, by decide⟩

/-- C9 (amended): a response with `base_resp` absent, or with
`base_resp.status_code` absent, is treated as an application error (the
status code defaults to -1): no file is written and the process exits
with status 1 without crashing, printing `base_resp.status_msg` when that
field is present and the fallback "Unknown error" when it is absent — in
particular, whenever `base_resp` itself is absent. -/
theorem missing_envelope_defaults (abspath : String → String) (k : String)
    (args : Args) (fields : List (String × Json))
    (hk : ¬ k = "") (ht : ¬ pyStrip args.text = "") :
    (fields.lookup "base_resp" = none →
      (runMain abspath (some k) args (.ok (.obj fields))).written = none ∧
      (runMain abspath (some k) args (.ok (.obj fields))).exitCode = 1 ∧
      (runMain abspath (some k) args (.ok (.obj fields))).crashed = false ∧
      (runMain abspath (some k) args (.ok (.obj fields))).stdout =
        ["ERROR: Unknown error"]) ∧
    (∀ br, fields.lookup "base_resp" = some (Json.obj br) →
      br.lookup "status_code" = none →
      (runMain abspath (some k) args (.ok (.obj fields))).written = none ∧
      (runMain abspath (some k) args (.ok (.obj fields))).exitCode = 1 ∧
      (runMain abspath (some k) args (.ok (.obj fields))).crashed = false ∧
      (runMain abspath (some k) args (.ok (.obj fields))).stdout =
        ["ERROR: " ++ pyStr (dictGetD br "status_msg" (Json.str "Unknown error"))] ∧
      (br.lookup "status_msg" = none →
        (runMain abspath (some k) args (.ok (.obj fields))).stdout =
          ["ERROR: Unknown error"])) := by
  constructor
  · intro hnone
    have hb : dictGetD fields "base_resp" (Json.obj []) = Json.obj [] := by
      simp [dictGetD, hnone]
    rw [runMain_appError abspath k args fields [] hk ht hb (by decide)]
    exact ⟨rfl, rfl, rfl, rfl⟩
  · intro br hbr hsc
    have hb : dictGetD fields "base_resp" (Json.obj []) = Json.obj br := by
      simp [dictGetD, hbr]
    have hs' : pyEqZero (dictGetD br "status_code" (Json.num (-1))) = false := by
      rw [show dictGetD br "status_code" (Json.num (-1)) = Json.num (-1) from by
        simp [dictGetD, hsc]]
      decide
    rw [runMain_appError abspath k args fields br hk ht hb hs']
    refine ⟨rfl, rfl, rfl, rfl, fun hm => ?_⟩
    simp [dictGetD, hm, pyStr]

/-- Witness for C9's amended theorem: `base_resp` entirely absent. -/
theorem missing_envelope_defaults_witness :
    (runMain id (some "key") sampleArgs (.ok (.obj []))).stdout =
      ["ERROR: Unknown error"] :=
  ((missing_envelope_defaults id "key" sampleArgs [] (by decide) (by decide)).1
    rfl).2.2.2

/-- C10: when the text has surrounding whitespace around non-empty
content, the request that is sent carries the original text verbatim in
its `text` field — trimming is used only for the emptiness check. -/
theorem text_sent_verbatim (abspath : String → String) (k : String) (args : Args)
    (transport : TransportOutcome)
    (hk : ¬ k = "") (ht : ¬ pyStrip args.text = "")
    (hws : ¬ args.text = pyStrip args.text) :
    (runMain abspath (some k) args transport).request = some (buildPayload args) ∧
    (jsonObjFields (buildPayload args)).lookup "text" = some (Json.str args.text) ∧
    ¬ args.text = pyStrip args.text :=
  ⟨runMain_request abspath k args transport hk ht, rfl, hws⟩

/-- Witness for C10 with text "  hi  ". -/
theorem text_sent_verbatim_witness :
    (runMain id (some "key") spacedArgs .netError).request =
      some (buildPayload spacedArgs) :=
  (text_sent_verbatim id "key" spacedArgs .netError
    (by decide) (by decide) (by decide)).1
